import Mathlib

/-!
# Verification of the `raii_flock` crate (`src/lib.rs`)

A shallow embedding of the crate: a `FileLock` wrapper over an open file
that takes an advisory OS lock at construction and unlocks in its `Drop`
implementation.

The OS environment (file contents, handle positions, the advisory-lock
table, fault injection for the syscalls) is modelled explicitly as a
first-order `World` so that every definition is executable and every
concrete run is decidable.  The crate's own code (`FileLock`, its four
constructors, the `Read`/`Write`/`Seek` impls for `FileLock` and
`&FileLock`, and `Drop for FileLock`) is translated function by function
from `src/lib.rs`; the primitives of `std::fs::File` and of the `fs2`
crate, which are outside this repository, are modelled from their
documented advisory-locking semantics as described in the spec.
-/

/-- Advisory lock mode, one of shared or exclusive. -/
inductive LockMode
  | shared
  | exclusive
deriving DecidableEq, Repr

/-- The model of `std::io::Error` values the crate can see:
`wouldBlock` is the contention error (`ErrorKind::WouldBlock`, the kind of
`fs2::lock_contended_error()`), `osError code` is any other OS error. -/
inductive IOError
  | wouldBlock
  | osError (code : Nat)
deriving DecidableEq, Repr

/-- The model of an open `std::fs::File`: an OS handle identifier plus the
inode of the underlying on-disk file.  The cursor position lives in the
`World`, keyed by handle (it is kernel state, which is why `&File` I/O
works in Rust). -/
structure File where
  handle : Nat
  inode : Nat
deriving DecidableEq, Repr

/-- The model of `std::io::SeekFrom`. -/
inductive SeekFrom
  | start (n : Nat)
  | fromEnd (off : Int)
  | current (off : Int)
deriving DecidableEq, Repr

/-- The OS state visible to the crate: file contents per inode, cursor
position per handle, the set of open handles, the advisory-lock table
(handle, inode, mode), and fault-injection tables that make a given
handle's lock, unlock, or I/O syscalls fail with a chosen error. -/
structure World where
  disk : List (Nat × List Nat)
  filePos : List (Nat × Nat)
  openHandles : List Nat
  locks : List (Nat × Nat × LockMode)
  lockFault : List (Nat × IOError)
  unlockFault : List (Nat × IOError)
  ioFault : List (Nat × IOError)
deriving DecidableEq, Repr

/-- Contents of inode `i` (empty when the inode has not been written). -/
def World.contents (w : World) (i : Nat) : List Nat :=
  (w.disk.lookup i).getD []

/-- Cursor position of handle `h`. -/
def World.getPos (w : World) (h : Nat) : Nat :=
  (w.filePos.lookup h).getD 0

/-- Set the cursor position of handle `h`. -/
def World.setPos (w : World) (h : Nat) (p : Nat) : World :=
  { w with filePos := (h, p) :: w.filePos }

/-- Overwrite the contents of inode `i`. -/
def World.setContents (w : World) (i : Nat) (c : List Nat) : World :=
  { w with disk := (i, c) :: w.disk }

/-- Does `l` (an entry of the lock table) conflict with a *shared* request
by `f`?  Only an *exclusive* lock held through a different handle on the
same inode does. -/
def conflictsShared (f : File) (l : Nat × Nat × LockMode) : Bool :=
  l.2.1 == f.inode && !(l.1 == f.handle) &&
    (match l.2.2 with
     | LockMode.exclusive => true
     | LockMode.shared => false)

/-- Does `l` conflict with an *exclusive* request by `f`?  Any lock held
through a different handle on the same inode does. -/
def conflictsExclusive (f : File) (l : Nat × Nat × LockMode) : Bool :=
  l.2.1 == f.inode && !(l.1 == f.handle)

/-- Modelled from the spec: `fs2::FileExt::try_lock_shared` — non-blocking
shared acquire; fails immediately with the contention error when an
incompatible (exclusive) lock is held elsewhere, or with an injected OS
error; on success records the lock. -/
def File.try_lock_shared (w : World) (f : File) : Except IOError World :=
  match w.lockFault.lookup f.handle with
  | some e => Except.error e
  | none =>
    if w.locks.any (conflictsShared f) then Except.error IOError.wouldBlock
    else Except.ok { w with locks := (f.handle, f.inode, LockMode.shared) :: w.locks }

/-- Modelled from the spec: `fs2::FileExt::try_lock_exclusive` —
non-blocking exclusive acquire; fails immediately with the contention
error when any lock is held elsewhere. -/
def File.try_lock_exclusive (w : World) (f : File) : Except IOError World :=
  match w.lockFault.lookup f.handle with
  | some e => Except.error e
  | none =>
    if w.locks.any (conflictsExclusive f) then Except.error IOError.wouldBlock
    else Except.ok { w with locks := (f.handle, f.inode, LockMode.exclusive) :: w.locks }

/-- Modelled from the spec: `fs2::FileExt::lock_shared` — blocking shared
acquire.  `none` means the calling thread blocks (an incompatible lock is
held and the call has not yet returned); it fails only on an injected OS
error, never on contention. -/
def File.lock_shared (w : World) (f : File) : Option (Except IOError World) :=
  match w.lockFault.lookup f.handle with
  | some e => some (Except.error e)
  | none =>
    if w.locks.any (conflictsShared f) then none
    else some (Except.ok { w with locks := (f.handle, f.inode, LockMode.shared) :: w.locks })

/-- Modelled from the spec: `fs2::FileExt::lock_exclusive` — blocking
exclusive acquire. -/
def File.lock_exclusive (w : World) (f : File) : Option (Except IOError World) :=
  match w.lockFault.lookup f.handle with
  | some e => some (Except.error e)
  | none =>
    if w.locks.any (conflictsExclusive f) then none
    else some (Except.ok { w with locks := (f.handle, f.inode, LockMode.exclusive) :: w.locks })

/-- Modelled from the spec: `fs2::FileExt::unlock` — releases every
advisory lock held through this handle; may fail with an injected OS
error, in which case the lock table is unchanged. -/
def File.unlock (w : World) (f : File) : Except IOError World :=
  match w.unlockFault.lookup f.handle with
  | some e => Except.error e
  | none => Except.ok { w with locks := w.locks.filter (fun l => !(l.1 == f.handle)) }

/-- Modelled from the spec: dropping a `std::fs::File` closes the handle;
closing releases the advisory locks held through it. -/
def File.dropClose (w : World) (f : File) : World :=
  { w with
      openHandles := w.openHandles.filter (fun h => !(h == f.handle)),
      locks := w.locks.filter (fun l => !(l.1 == f.handle)) }

/-- Modelled from the spec: `std::io::Read::read` on a `File` — reads up
to `len` bytes at the cursor and advances it, returning the bytes read
(their count is the usize result); fails only on an injected I/O error. -/
def File.read (w : World) (f : File) (len : Nat) : World × Except IOError (List Nat) :=
  match w.ioFault.lookup f.handle with
  | some e => (w, Except.error e)
  | none =>
    let p := w.getPos f.handle
    let c := w.contents f.inode
    let chunk := (c.drop p).take len
    (w.setPos f.handle (p + chunk.length), Except.ok chunk)

/-- Modelled from the spec: `std::io::Write::write` on a `File` —
overwrites at the cursor (zero-padding any gap past the end), advances
the cursor, and returns the number of bytes written. -/
def File.write (w : World) (f : File) (buf : List Nat) : World × Except IOError Nat :=
  match w.ioFault.lookup f.handle with
  | some e => (w, Except.error e)
  | none =>
    let p := w.getPos f.handle
    let c := w.contents f.inode
    let padded := c ++ List.replicate (p - c.length) 0
    let c2 := padded.take p ++ buf ++ padded.drop (p + buf.length)
    ((w.setContents f.inode c2).setPos f.handle (p + buf.length), Except.ok buf.length)

/-- Modelled from the spec: `std::io::Write::flush` on a `File` — a
metadata no-op that can only fail with an injected I/O error. -/
def File.flush (w : World) (f : File) : World × Except IOError Unit :=
  match w.ioFault.lookup f.handle with
  | some e => (w, Except.error e)
  | none => (w, Except.ok ())

/-- Modelled from the spec: `std::io::Seek::seek` on a `File` — moves the
cursor and returns the new position; seeking before byte 0 is an OS
error. -/
def File.seek (w : World) (f : File) (pos : SeekFrom) : World × Except IOError Nat :=
  match w.ioFault.lookup f.handle with
  | some e => (w, Except.error e)
  | none =>
    let base : Int :=
      match pos with
      | SeekFrom.start n => (n : Int)
      | SeekFrom.fromEnd off => ((w.contents f.inode).length : Int) + off
      | SeekFrom.current off => ((w.getPos f.handle) : Int) + off
    if base < 0 then (w, Except.error (IOError.osError 22))
    else (w.setPos f.handle base.toNat, Except.ok base.toNat)

/-- Equality of `Except` results is decidable, so that concrete runs can
be checked by evaluation. -/
instance exceptDecEq {ε α : Type} [DecidableEq ε] [DecidableEq α] :
    DecidableEq (Except ε α) := fun x y =>
  match x, y with
  | Except.error a, Except.error b =>
    if h : a = b then isTrue (by rw [h])
    else isFalse (fun hc => h (Except.error.inj hc))
  | Except.error _, Except.ok _ => isFalse (fun hc => Except.noConfusion hc)
  | Except.ok _, Except.error _ => isFalse (fun hc => Except.noConfusion hc)
  | Except.ok a, Except.ok b =>
    if h : a = b then isTrue (by rw [h])
    else isFalse (fun hc => h (Except.ok.inj hc))

/-- Translated from `pub struct FileLock(pub File)`: a wrapper holding the
file by value in a single *public* field. -/
structure FileLock where
  file : File
deriving DecidableEq, Repr

/-- Translated from `FileLock::try_wrap_shared`: try the non-blocking
shared lock and wrap on success.  On the `?` early return the local `f`
goes out of scope, so the `File` is dropped (closed). -/
def FileLock.try_wrap_shared (w : World) (f : File) : World × Except IOError FileLock :=
  match File.try_lock_shared w f with
  | Except.ok w1 => (w1, Except.ok ⟨f⟩)
  | Except.error e => (File.dropClose w f, Except.error e)

/-- Translated from `FileLock::wrap_shared`: blocking shared lock; `none`
when the thread is still blocked waiting for the lock. -/
def FileLock.wrap_shared (w : World) (f : File) : Option (World × Except IOError FileLock) :=
  match File.lock_shared w f with
  | none => none
  | some (Except.ok w1) => some (w1, Except.ok ⟨f⟩)
  | some (Except.error e) => some (File.dropClose w f, Except.error e)

/-- Translated from `FileLock::try_wrap_exclusive`. -/
def FileLock.try_wrap_exclusive (w : World) (f : File) : World × Except IOError FileLock :=
  match File.try_lock_exclusive w f with
  | Except.ok w1 => (w1, Except.ok ⟨f⟩)
  | Except.error e => (File.dropClose w f, Except.error e)

/-- Translated from `FileLock::wrap_exclusive`. -/
def FileLock.wrap_exclusive (w : World) (f : File) : Option (World × Except IOError FileLock) :=
  match File.lock_exclusive w f with
  | none => none
  | some (Except.ok w1) => some (w1, Except.ok ⟨f⟩)
  | some (Except.error e) => some (File.dropClose w f, Except.error e)

/-- Translated from `impl Write for FileLock`: `self.0.write(buf)`. -/
def FileLock.write (w : World) (fl : FileLock) (buf : List Nat) : World × Except IOError Nat :=
  File.write w fl.file buf

/-- Translated from `impl Write for FileLock`: `self.0.flush()`. -/
def FileLock.flush (w : World) (fl : FileLock) : World × Except IOError Unit :=
  File.flush w fl.file

/-- Translated from `impl Read for FileLock`: `self.0.read(buf)`. -/
def FileLock.read (w : World) (fl : FileLock) (len : Nat) : World × Except IOError (List Nat) :=
  File.read w fl.file len

/-- Translated from `impl Seek for FileLock`: `self.0.seek(pos)`. -/
def FileLock.seek (w : World) (fl : FileLock) (pos : SeekFrom) : World × Except IOError Nat :=
  File.seek w fl.file pos

/-- Translated from `impl<'a> Write for &'a FileLock`:
`(&self.0).write(buf)` — the same kernel operation through a shared
reference. -/
def FileLock.writeRef (w : World) (fl : FileLock) (buf : List Nat) : World × Except IOError Nat :=
  File.write w fl.file buf

/-- Translated from `impl<'a> Write for &'a FileLock`: `(&self.0).flush()`. -/
def FileLock.flushRef (w : World) (fl : FileLock) : World × Except IOError Unit :=
  File.flush w fl.file

/-- Translated from `impl<'a> Read for &'a FileLock`: `(&self.0).read(buf)`. -/
def FileLock.readRef (w : World) (fl : FileLock) (len : Nat) : World × Except IOError (List Nat) :=
  File.read w fl.file len

/-- Translated from `impl<'a> Seek for &'a FileLock`: `(&self.0).seek(pos)`. -/
def FileLock.seekRef (w : World) (fl : FileLock) (pos : SeekFrom) : World × Except IOError Nat :=
  File.seek w fl.file pos

/-- Observable actions of a destructor run: the unlock syscall being
invoked on a handle, and a line written to stderr. -/
inductive Event
  | unlockCalled (handle : Nat)
  | stderr (msg : String)
deriving DecidableEq, Repr

/-- A fatal error raised from a destructor (a Rust panic). -/
inductive Panic
  | panicked (msg : String)
deriving DecidableEq, Repr

/-- Rendering of an `io::Error` by `Display`, as used in the crate's
`eprintln!`. -/
def IOError.render : IOError → String
  | IOError.wouldBlock => "operation would block"
  | IOError.osError code => "os error " ++ toString code

/-- Translated from `impl Drop for FileLock`:
`if let Err(e) = self.0.unlock() \x7b eprintln!("error file lock: \x7b\x7d", e) \x7d`.
The result is `Except Panic` so that a destructor that panicked would be
expressible; this one never does. -/
def FileLock.dropRun (w : World) (fl : FileLock) : Except Panic (World × List Event) :=
  match File.unlock w fl.file with
  | Except.ok w1 => Except.ok (w1, [Event.unlockCalled fl.file.handle])
  | Except.error e =>
    Except.ok (w, [Event.unlockCalled fl.file.handle,
                   Event.stderr ("error file lock: " ++ e.render)])

/-- The ownership variant of a wrapper constructor: does the wrapper own
the file outright, or borrow a reference owned elsewhere? -/
inductive OwnershipVariant
  | owning
  | borrowing
deriving DecidableEq, Repr

/-- A public constructor of the crate's wrapper type, recorded with its
variant, blocking policy and lock mode. -/
structure CrateConstructor where
  name : String
  variant : OwnershipVariant
  blocking : Bool
  mode : LockMode
deriving DecidableEq, Repr

/-- The complete list of public wrapper constructors in `src/lib.rs`: the
four `impl FileLock` functions, each taking `f: File` by value (owning).
No other wrapper type or constructor exists in the crate. -/
def crateConstructors : List CrateConstructor :=
  [ ⟨"try_wrap_shared", OwnershipVariant.owning, false, LockMode.shared⟩,
    ⟨"wrap_shared", OwnershipVariant.owning, true, LockMode.shared⟩,
    ⟨"try_wrap_exclusive", OwnershipVariant.owning, false, LockMode.exclusive⟩,
    ⟨"wrap_exclusive", OwnershipVariant.owning, true, LockMode.exclusive⟩ ]

/-- Dispatch a blocking-policy/mode pair to the corresponding `FileLock`
constructor; `none` means the calling thread is blocked (only possible
for the blocking constructors). -/
def runConstructor (blocking : Bool) (mode : LockMode) (w : World) (f : File) :
    Option (World × Except IOError FileLock) :=
  match blocking, mode with
  | false, LockMode.shared => some (FileLock.try_wrap_shared w f)
  | false, LockMode.exclusive => some (FileLock.try_wrap_exclusive w f)
  | true, LockMode.shared => FileLock.wrap_shared w f
  | true, LockMode.exclusive => FileLock.wrap_exclusive w f

/-- The lifecycle of one wrapper slot, as the host language's ownership
discipline presents it: a caller holding a `File` (pre-construction), a
live wrapper (post successful construction), a failed construction (the
file was consumed by the attempt), and a destroyed wrapper together with
the events its destructor emitted. -/
inductive WrapperState
  | availableS (w : World) (f : File)
  | lockedS (w : World) (fl : FileLock)
  | failedS (w : World)
  | releasedS (w : World) (evs : List Event)
deriving DecidableEq, Repr

/-- The operations a caller can perform on the wrapper slot. -/
inductive WrapperOp
  | constructOp (blocking : Bool) (mode : LockMode)
  | destroyOp
deriving DecidableEq, Repr

/-- One lifecycle step.  A constructor needs an owned `File` (so it only
applies in the pre-construction state), and destruction consumes the
wrapper (so it only applies to a live wrapper); every other combination
is structurally impossible (`none`), exactly as Rust's move semantics
make it. -/
def wrapperStep : WrapperState → WrapperOp → Option WrapperState
  | WrapperState.availableS w f, WrapperOp.constructOp b m =>
    match runConstructor b m w f with
    | none => none
    | some (w1, Except.ok fl) => some (WrapperState.lockedS w1 fl)
    | some (w1, Except.error _) => some (WrapperState.failedS w1)
  | WrapperState.lockedS w fl, WrapperOp.destroyOp =>
    match FileLock.dropRun w fl with
    | Except.ok (w1, evs) => some (WrapperState.releasedS w1 evs)
    | Except.error _ => none
  | _, _ => none

/-- Number of times the unlock syscall appears in an event list. -/
def countUnlock (evs : List Event) : Nat :=
  evs.countP (fun e =>
    match e with
    | Event.unlockCalled _ => true
    | Event.stderr _ => false)

/-- The P5 experiment run through the wrapper: write `data` at the current
cursor, seek back to where the write started, and read `data.length`
bytes; the first error aborts the run. -/
def writeThenReadWrapped (w : World) (fl : FileLock) (data : List Nat) :
    Except IOError (List Nat) :=
  let p := w.getPos fl.file.handle
  let (w1, r1) := FileLock.write w fl data
  match r1 with
  | Except.error e => Except.error e
  | Except.ok _ =>
    let (w2, r2) := FileLock.seek w1 fl (SeekFrom.start p)
    match r2 with
    | Except.error e => Except.error e
    | Except.ok _ =>
      let (_, r3) := FileLock.read w2 fl data.length
      r3

/-- The same experiment performed directly on the unwrapped `File`. -/
def writeThenReadDirect (w : World) (f : File) (data : List Nat) :
    Except IOError (List Nat) :=
  let p := w.getPos f.handle
  let (w1, r1) := File.write w f data
  match r1 with
  | Except.error e => Except.error e
  | Except.ok _ =>
    let (w2, r2) := File.seek w1 f (SeekFrom.start p)
    match r2 with
    | Except.error e => Except.error e
    | Except.ok _ =>
      let (_, r3) := File.read w2 f data.length
      r3

/-- Every lock-table entry surviving `File.dropClose` belongs to a
different handle. -/
theorem dropClose_locks_ne (w : World) (f : File) :
    ∀ l ∈ (File.dropClose w f).locks, l.1 ≠ f.handle := by
  intro l hl
  have h2 := (List.mem_filter.mp hl).2
  simpa using h2

/-- After `File.dropClose`, the dropped handle is no longer open. -/
theorem dropClose_not_open (w : World) (f : File) :
    f.handle ∉ (File.dropClose w f).openHandles := by
  intro hmem
  have h2 := (List.mem_filter.mp hmem).2
  simp at h2

/-- Every lock-table entry surviving a successful `File.unlock` belongs to
a different handle. -/
theorem unlock_locks_ne (w w1 : World) (f : File)
    (h : File.unlock w f = Except.ok w1) :
    ∀ l ∈ w1.locks, l.1 ≠ f.handle := by
  intro l hl
  unfold File.unlock at h
  rcases hlk : w.unlockFault.lookup f.handle with _ | e <;> rw [hlk] at h
  · injection h with h
    subst h
    have h2 := (List.mem_filter.mp hl).2
    simpa using h2
  · exact absurd h (by simp)

/-- Claim C4: for every wrapper and every call to its read, write, flush,
or seek operation with any arguments, the result (world effect, count,
position, or error value) is exactly the result of invoking the same
operation with the same arguments directly on the underlying file — the
`Write`, `Read` and `Seek` impls for `FileLock` forward to `self.0`
without buffering, retry, or transformation. -/
theorem c4_io_delegation :
    (∀ w fl buf, FileLock.write w fl buf = File.write w fl.file buf) ∧
    (∀ w fl, FileLock.flush w fl = File.flush w fl.file) ∧
    (∀ w fl len, FileLock.read w fl len = File.read w fl.file len) ∧
    (∀ w fl pos, FileLock.seek w fl pos = File.seek w fl.file pos) :=
  ⟨fun _ _ _ => rfl, fun _ _ => rfl, fun _ _ _ => rfl, fun _ _ _ => rfl⟩

/-- Claim C10: read, write, flush and seek are also available through a
shared reference to the wrapper — the impls for `&'a FileLock` delegate
to the corresponding operations on `&File`, so I/O needs no mutable
access to the wrapper. -/
theorem c10_ref_io_delegation :
    (∀ w fl buf, FileLock.writeRef w fl buf = File.write w fl.file buf) ∧
    (∀ w fl, FileLock.flushRef w fl = File.flush w fl.file) ∧
    (∀ w fl len, FileLock.readRef w fl len = File.read w fl.file len) ∧
    (∀ w fl pos, FileLock.seekRef w fl pos = File.seek w fl.file pos) :=
  ⟨fun _ _ _ => rfl, fun _ _ => rfl, fun _ _ _ => rfl, fun _ _ _ => rfl⟩

/-- Claim C9: the underlying file is a public field of the wrapper, so the
caller can read it, replace it, and every wrapper operation — including
the destructor's unlock — acts on whatever file currently occupies the
field, not necessarily the file locked at construction. -/
theorem c9_public_field :
    (∀ f, (FileLock.mk f).file = f) ∧
    (∀ (fl : FileLock) (g : File), ({ fl with file := g } : FileLock).file = g) ∧
    (∀ (w : World) (fl : FileLock) (g : File) (buf : List Nat),
      FileLock.write w { fl with file := g } buf = File.write w g buf) ∧
    (∀ (w : World) (fl : FileLock) (g : File) (len : Nat),
      FileLock.read w { fl with file := g } len = File.read w g len) ∧
    (∀ (w : World) (fl : FileLock) (g : File) (pos : SeekFrom),
      FileLock.seek w { fl with file := g } pos = File.seek w g pos) ∧
    (∀ (w : World) (fl : FileLock) (g : File), ∃ w1 evs,
      FileLock.dropRun w { fl with file := g } = Except.ok (w1, evs) ∧
        Event.unlockCalled g.handle ∈ evs) := by
  refine ⟨fun _ => rfl, fun _ _ => rfl, fun _ _ _ _ => rfl, fun _ _ _ _ => rfl,
    fun _ _ _ _ => rfl, fun w fl g => ?_⟩
  rcases h : File.unlock w g with e | w1
  · exact ⟨w, [Event.unlockCalled g.handle,
        Event.stderr ("error file lock: " ++ e.render)],
      by simp [FileLock.dropRun, h], by simp⟩
  · exact ⟨w1, [Event.unlockCalled g.handle],
      by simp [FileLock.dropRun, h], by simp⟩

/-- Claim C3 (counterexample): the crate's public wrapper constructors —
the four functions of `impl FileLock` in `src/lib.rs` — contain no
borrowing-variant constructor; the claimed borrowing variant of the
wrapper does not exist in the code. -/
theorem c3_no_borrowing_counterexample :
    crateConstructors.countP
      (fun c => c.variant == OwnershipVariant.borrowing) = 0 := by
  decide

/-- Claim C3 (amended): the crate provides only the owning variant of the
locked-file wrapper; its four constructors cover exactly the
{blocking, non-blocking} × {shared, exclusive} combinations and each
takes the file by value (owning).  No borrowing wrapper type or
constructor exists. -/
theorem c3_owning_only :
    crateConstructors.all
      (fun c => c.variant == OwnershipVariant.owning) = true ∧
    crateConstructors.length = 4 ∧
    (∀ b m, ∃ c ∈ crateConstructors,
      c.blocking = b ∧ c.mode = m ∧ c.variant = OwnershipVariant.owning) := by
  refine ⟨by decide, by decide, ?_⟩
  intro b m
  cases b <;> cases m <;> decide

/-- `setPos` does not touch the fault tables. -/
theorem World.ioFault_setPos (w : World) (h p : Nat) :
    (w.setPos h p).ioFault = w.ioFault := rfl

/-- `setContents` does not touch the fault tables. -/
theorem World.ioFault_setContents (w : World) (i : Nat) (c : List Nat) :
    (w.setContents i c).ioFault = w.ioFault := rfl

/-- Reading back a freshly set cursor position. -/
theorem World.getPos_setPos (w : World) (h p : Nat) :
    (w.setPos h p).getPos h = p := by
  simp [World.getPos, World.setPos]

/-- `setPos` does not change any file's contents. -/
theorem World.contents_setPos (w : World) (h p i : Nat) :
    (w.setPos h p).contents i = w.contents i := rfl

/-- Reading back freshly set contents. -/
theorem World.contents_setContents (w : World) (i : Nat) (c : List Nat) :
    (w.setContents i c).contents i = c := by
  simp [World.contents, World.setContents]

/-- The bytes a write places at cursor `p` are read back intact by a
`data.length`-byte read from position `p`. -/
theorem roundtrip_chunk (c data : List Nat) (p : Nat) :
    List.take data.length
      (List.drop p
        ((c ++ List.replicate (p - c.length) 0).take p ++
          (data ++ (c ++ List.replicate (p - c.length) 0).drop (p + data.length)))) =
      data := by
  have hlen : ((c ++ List.replicate (p - c.length) 0).take p).length = p := by
    simp only [List.length_take, List.length_append, List.length_replicate]
    omega
  rw [List.drop_left' hlen, List.take_left]

/-- A natural number cast to `Int` is never negative. -/
theorem natCast_lt_zero_iff (n : Nat) : ((n : Int) < 0) ↔ False := by simp

/-- Claim C8: write-then-read-back through the wrapper returns exactly
the same bytes as the same experiment performed directly on the
unwrapped file, for every byte sequence (any length, 0 and 4096
included); moreover on a fault-free handle both return precisely the
bytes written. -/
theorem c8_write_read_roundtrip :
    (∀ w fl data, writeThenReadWrapped w fl data = writeThenReadDirect w fl.file data) ∧
    (∀ w fl data, w.ioFault.lookup fl.file.handle = none →
      writeThenReadWrapped w fl data = Except.ok data) := by
  constructor
  · intro _ _ _
    rfl
  · intro w fl data hf
    simp [writeThenReadWrapped, FileLock.write, FileLock.seek, FileLock.read,
      File.write, File.seek, File.read, hf, World.ioFault_setPos,
      World.ioFault_setContents, World.getPos_setPos, World.contents_setPos,
      World.contents_setContents, natCast_lt_zero_iff, roundtrip_chunk]

/-- A test world: inode 5 holds three bytes, handles 1 and 2 are open on
it, no locks are held and no syscall faults are injected. -/
def wFree : World :=
  { disk := [(5, [10, 20, 30])], filePos := [(1, 0), (2, 0)],
    openHandles := [1, 2], locks := [], lockFault := [], unlockFault := [],
    ioFault := [] }

/-- Handle 1 on inode 5. -/
def f1 : File := ⟨1, 5⟩

/-- `wFree` after handle 1 has taken the shared lock. -/
def wFreeShared : World := { wFree with locks := [(1, 5, LockMode.shared)] }

/-- The wrapper over handle 1. -/
def flock1 : FileLock := ⟨f1⟩

/-- A world in which handle 2 already holds the exclusive lock on
inode 5. -/
def wContended : World := { wFree with locks := [(2, 5, LockMode.exclusive)] }

/-- A world in which the unlock syscall on handle 1 fails. -/
def wUnlockFault : World := { wFree with unlockFault := [(1, IOError.osError 9)] }

/-- Claim C1: every wrapper built by one of the four constructors
releases its lock when destroyed: the `Drop` impl invokes the unlock
primitive on the underlying file and (the unlock syscall succeeding) no
lock held through the wrapper's handle survives destruction. -/
theorem c1_unlock_on_drop :
    ∀ w f w1 fl,
      (FileLock.try_wrap_shared w f = (w1, Except.ok fl) ∨
       FileLock.try_wrap_exclusive w f = (w1, Except.ok fl) ∨
       FileLock.wrap_shared w f = some (w1, Except.ok fl) ∨
       FileLock.wrap_exclusive w f = some (w1, Except.ok fl)) →
      w1.unlockFault.lookup fl.file.handle = none →
      ∃ w2 evs, FileLock.dropRun w1 fl = Except.ok (w2, evs) ∧
        Event.unlockCalled fl.file.handle ∈ evs ∧
        ∀ l ∈ w2.locks, l.1 ≠ fl.file.handle := by
  intro w f w1 fl _ hnf
  have hu : File.unlock w1 fl.file =
      Except.ok { w1 with locks := w1.locks.filter (fun l => !(l.1 == fl.file.handle)) } := by
    simp [File.unlock, hnf]
  refine ⟨{ w1 with locks := w1.locks.filter (fun l => !(l.1 == fl.file.handle)) },
    [Event.unlockCalled fl.file.handle], ?_, ?_, ?_⟩
  · simp [FileLock.dropRun, hu]
  · simp
  · intro l hl
    have h2 := (List.mem_filter.mp hl).2
    simpa using h2

/-- Witness for C1 at a concrete world: construct over handle 1 with the
non-blocking shared constructor, then drop. -/
theorem c1_unlock_on_drop_witness :
    ∃ w2 evs, FileLock.dropRun wFreeShared flock1 = Except.ok (w2, evs) ∧
      Event.unlockCalled flock1.file.handle ∈ evs ∧
      ∀ l ∈ w2.locks, l.1 ≠ flock1.file.handle :=
  c1_unlock_on_drop wFree f1 wFreeShared flock1 (Or.inl (by decide)) (by decide)

/-- Claim C2 (counterexample): handle 1 is open before a failed
non-blocking shared acquire (handle 2 holds the exclusive lock); the
constructor returns the contention error — and handle 1 is closed
afterwards.  The file WAS consumed by the failing call: the caller does
not retain access, so the claim is false on the code. -/
theorem c2_consumed_counterexample :
    1 ∈ wContended.openHandles ∧
    (FileLock.try_wrap_shared wContended f1).2 = Except.error IOError.wouldBlock ∧
    1 ∉ (FileLock.try_wrap_shared wContended f1).1.openHandles := by
  decide

/-- Claim C2 (amended): on every failing constructor call no wrapper is
created, the error is returned, and no lock is left held through the
file's handle — but the file resource IS consumed: the constructor took
it by value, so on the error path it is dropped (closed) and the caller
retains no access to it. -/
theorem c2_fail_consumes_file :
    ∀ w f e w1,
      (FileLock.try_wrap_shared w f = (w1, Except.error e) ∨
       FileLock.try_wrap_exclusive w f = (w1, Except.error e) ∨
       FileLock.wrap_shared w f = some (w1, Except.error e) ∨
       FileLock.wrap_exclusive w f = some (w1, Except.error e)) →
      w1 = File.dropClose w f ∧
      (∀ l ∈ w1.locks, l.1 ≠ f.handle) ∧
      f.handle ∉ w1.openHandles := by
  intro w f e w1 h
  have hw1 : w1 = File.dropClose w f := by
    rcases h with h | h | h | h
    · unfold FileLock.try_wrap_shared at h
      rcases hts : File.try_lock_shared w f with e1 | w2 <;> rw [hts] at h <;> simp at h
      exact h.1.symm
    · unfold FileLock.try_wrap_exclusive at h
      rcases hts : File.try_lock_exclusive w f with e1 | w2 <;> rw [hts] at h <;> simp at h
      exact h.1.symm
    · unfold FileLock.wrap_shared at h
      rcases hts : File.lock_shared w f with _ | e1 | w2 <;> rw [hts] at h <;> simp at h
      exact h.1.symm
    · unfold FileLock.wrap_exclusive at h
      rcases hts : File.lock_exclusive w f with _ | e1 | w2 <;> rw [hts] at h <;> simp at h
      exact h.1.symm
  subst hw1
  exact ⟨rfl, dropClose_locks_ne w f, dropClose_not_open w f⟩

/-- Witness for the amended C2 at the contended world. -/
theorem c2_fail_consumes_file_witness :
    File.dropClose wContended f1 = File.dropClose wContended f1 ∧
    (∀ l ∈ (File.dropClose wContended f1).locks, l.1 ≠ f1.handle) ∧
    f1.handle ∉ (File.dropClose wContended f1).openHandles :=
  c2_fail_consumes_file wContended f1 IOError.wouldBlock
    (File.dropClose wContended f1) (Or.inl (by decide))

/-- Claim C5: the owning wrapper's destructor never raises a fatal error
(never panics), whatever the unlock outcome; when the unlock primitive
fails, the failure is reported as a best-effort diagnostic line written
to stderr. -/
theorem c5_drop_diagnostic_no_panic :
    ∀ w fl,
      (∃ w2 evs, FileLock.dropRun w fl = Except.ok (w2, evs)) ∧
      (∀ e, File.unlock w fl.file = Except.error e →
        FileLock.dropRun w fl =
          Except.ok (w, [Event.unlockCalled fl.file.handle,
            Event.stderr ("error file lock: " ++ e.render)])) := by
  intro w fl
  constructor
  · rcases h : File.unlock w fl.file with e | w1
    · exact ⟨w, [Event.unlockCalled fl.file.handle,
        Event.stderr ("error file lock: " ++ e.render)],
        by simp [FileLock.dropRun, h]⟩
    · exact ⟨w1, [Event.unlockCalled fl.file.handle], by simp [FileLock.dropRun, h]⟩
  · intro e he
    simp [FileLock.dropRun, he]

/-- Witness for C5 at a world whose unlock syscall fails. -/
theorem c5_drop_diagnostic_no_panic_witness :
    FileLock.dropRun wUnlockFault flock1 =
      Except.ok (wUnlockFault, [Event.unlockCalled flock1.file.handle,
        Event.stderr ("error file lock: " ++ (IOError.osError 9).render)]) :=
  (c5_drop_diagnostic_no_panic wUnlockFault flock1).2 (IOError.osError 9) (by decide)

/-- Claim C6: a non-blocking constructor attempted while another handle
holds an incompatible lock on the same file fails immediately with the
WouldBlock contention error, and no wrapper is created (the result
carries an error, not a `FileLock`).  For `try_wrap_exclusive` a lock of
ANY mode held elsewhere is incompatible; for `try_wrap_shared` an
exclusive lock held elsewhere is. -/
theorem c6_try_contention :
    ∀ w f h2 m,
      w.lockFault.lookup f.handle = none →
      (h2, f.inode, m) ∈ w.locks →
      h2 ≠ f.handle →
      (FileLock.try_wrap_exclusive w f).2 = Except.error IOError.wouldBlock ∧
      (m = LockMode.exclusive →
        (FileLock.try_wrap_shared w f).2 = Except.error IOError.wouldBlock) := by
  intro w f h2 m hnf hmem hne
  have hanyE : w.locks.any (conflictsExclusive f) = true := by
    refine List.any_eq_true.mpr ⟨(h2, f.inode, m), hmem, ?_⟩
    simp [conflictsExclusive, hne]
  constructor
  · simp [FileLock.try_wrap_exclusive, File.try_lock_exclusive, hnf, hanyE]
  · intro hm
    subst hm
    have hanyS : w.locks.any (conflictsShared f) = true := by
      refine List.any_eq_true.mpr ⟨(h2, f.inode, LockMode.exclusive), hmem, ?_⟩
      simp [conflictsShared, hne]
    simp [FileLock.try_wrap_shared, File.try_lock_shared, hnf, hanyS]

/-- Witness for C6: handle 2 holds the exclusive lock, handle 1 tries
both non-blocking constructors. -/
theorem c6_try_contention_witness :
    (FileLock.try_wrap_exclusive wContended f1).2 = Except.error IOError.wouldBlock ∧
    (LockMode.exclusive = LockMode.exclusive →
      (FileLock.try_wrap_shared wContended f1).2 = Except.error IOError.wouldBlock) :=
  c6_try_contention wContended f1 2 LockMode.exclusive (by decide) (by decide) (by decide)

/-- Claim C7: the wrapper lifecycle follows the three-state machine.
(1) The locked state is entered only from the pre-construction state by
a successful constructor call; (2) from the locked state the only
transition is destruction, and it leads to the released state; (3) the
released state has no outgoing transition, so a second destruction is
structurally impossible (the wrapper is single-use); (4) the one
destruction invokes the unlock syscall exactly once. -/
theorem c7_state_machine :
    (∀ s op w1 fl, wrapperStep s op = some (WrapperState.lockedS w1 fl) →
      ∃ w f b m, s = WrapperState.availableS w f ∧
        op = WrapperOp.constructOp b m ∧
        runConstructor b m w f = some (w1, Except.ok fl)) ∧
    (∀ w fl op s1, wrapperStep (WrapperState.lockedS w fl) op = some s1 →
      op = WrapperOp.destroyOp ∧ ∃ w1 evs, s1 = WrapperState.releasedS w1 evs ∧
        FileLock.dropRun w fl = Except.ok (w1, evs)) ∧
    (∀ w evs op, wrapperStep (WrapperState.releasedS w evs) op = none) ∧
    (∀ w fl w1 evs, FileLock.dropRun w fl = Except.ok (w1, evs) →
      countUnlock evs = 1) := by
  refine ⟨?_, ?_, ?_, ?_⟩
  · intro s op w1 fl h
    cases s with
    | availableS w f =>
      cases op with
      | constructOp b m =>
        simp only [wrapperStep] at h
        rcases hrc : runConstructor b m w f with _ | ⟨w2, r⟩ <;> rw [hrc] at h
        · simp at h
        · rcases r with e | fl2 <;> simp at h
          rcases h with ⟨hw, hfl⟩
          subst hw
          subst hfl
          exact ⟨w, f, b, m, rfl, rfl, hrc⟩
      | destroyOp =>
        simp only [wrapperStep] at h
        exact Option.noConfusion h
    | lockedS w fl2 =>
      cases op with
      | constructOp b m =>
        simp only [wrapperStep] at h
        exact Option.noConfusion h
      | destroyOp =>
        simp only [wrapperStep] at h
        rcases hd : FileLock.dropRun w fl2 with e | ⟨w2, evs⟩ <;> rw [hd] at h <;>
          simp at h
    | failedS w =>
      cases op <;> simp only [wrapperStep] at h <;> exact Option.noConfusion h
    | releasedS w evs =>
      cases op <;> simp only [wrapperStep] at h <;> exact Option.noConfusion h
  · intro w fl op s1 h
    cases op with
    | constructOp b m =>
      simp only [wrapperStep] at h
      exact Option.noConfusion h
    | destroyOp =>
      refine ⟨rfl, ?_⟩
      simp only [wrapperStep] at h
      rcases hd : FileLock.dropRun w fl with e | ⟨w2, evs2⟩ <;> rw [hd] at h <;> simp at h
      exact ⟨w2, evs2, h.symm, rfl⟩
  · intro w evs op
    cases op <;> rfl
  · intro w fl w1 evs h
    unfold FileLock.dropRun at h
    rcases hu : File.unlock w fl.file with e | w2 <;> rw [hu] at h <;> simp at h
    · rw [← h.2]
      rfl
    · rw [← h.2]
      rfl

/-- Witness for C7 at a concrete run: the non-blocking shared constructor
takes the free world into the locked state. -/
theorem c7_state_machine_witness :
    ∃ w f b m, WrapperState.availableS wFree f1 = WrapperState.availableS w f ∧
      WrapperOp.constructOp false LockMode.shared = WrapperOp.constructOp b m ∧
      runConstructor b m w f = some (wFreeShared, Except.ok flock1) :=
  c7_state_machine.1 (WrapperState.availableS wFree f1)
    (WrapperOp.constructOp false LockMode.shared) wFreeShared flock1 (by decide)

/-- Witness for C8: three bytes written through the wrapper over a
fault-free handle are read back intact. -/
theorem c8_write_read_roundtrip_witness :
    writeThenReadWrapped wFree flock1 [7, 8, 9] = Except.ok [7, 8, 9] :=
  c8_write_read_roundtrip.2 wFree flock1 [7, 8, 9] (by decide)
